import Mathlib

/-!
# Verification of the music-analysis dashboard (`dashboard.py`)

Shallow embedding of the data-loading / normalization and the chart-selection
logic of `src/dashboard.py`.  Cell values of the pandas `DataFrame` are
modelled by `Value` (a rational number, a string, a Python bool, or the
missing marker `na` standing for `NaN`/`pd.NA`).  A row is an association
list from column name to value, and a `DataFrame` carries the column list
(the schema, `df.columns`) together with the rows.
-/

/-- A cell value of the loaded table: number, string, Python bool, or
missing (`NaN` / `pd.NA`). -/
inductive Value where
  | num (q : ℚ)
  | str (s : String)
  | bool (b : Bool)
  | na
deriving DecidableEq, Repr

/-- `pd.isna` for a single cell. -/
def Value.isna : Value → Bool
  | .na => true
  | _ => false

/-- Is the cell a (non-boolean) number? -/
def Value.isNum : Value → Bool
  | .num _ => true
  | _ => false

/-- Is the cell a string? -/
def Value.isStr : Value → Bool
  | .str _ => true
  | _ => false

/-- One row of the table: an association list column-name ↦ value. -/
abbrev Row := List (String × Value)

/-- Reading a cell of a row (first occurrence of the column); a column that
does not occur reads as missing. -/
def Row.get : Row → String → Value
  | [], _ => .na
  | p :: r, c => if p.1 = c then p.2 else Row.get r c

/-- Writing a cell of a row (`df[col] = ...` restricted to one row):
replaces the value at the column's occurrence, appends it otherwise
(dataframe columns are unique). -/
def Row.setCell : Row → String → Value → Row
  | [], c, v => [(c, v)]
  | p :: r, c, v => if p.1 = c then (c, v) :: r else p :: Row.setCell r c v

/-- The table: schema (`df.columns`) plus rows. -/
structure DataFrame where
  cols : List String
  rows : List Row
deriving DecidableEq, Repr

/-- One column of the table as a list of cell values (`df[c]`). -/
def colVals (df : DataFrame) (c : String) : List Value :=
  df.rows.map (fun r => r.get c)

/-- `df[c] = df.apply f`: column assignment computed row-wise, extending the
schema when `c` is a new column. -/
def DataFrame.assign (df : DataFrame) (c : String) (f : Row → Value) : DataFrame :=
  ⟨if c ∈ df.cols then df.cols else df.cols ++ [c],
   df.rows.map (fun r => r.setCell c (f r))⟩

/-- `df[c] = pd.to_numeric(df[c], ...)`-style columnwise map (schema unchanged;
only used on columns present in the schema). -/
def DataFrame.mapCol (df : DataFrame) (c : String) (f : Value → Value) : DataFrame :=
  ⟨df.cols, df.rows.map (fun r => r.setCell c (f (r.get c)))⟩

/-- The row filter behind `df.dropna(subset=subset)`: keep the rows whose
cells at every column of `subset` are non-missing. -/
def dropnaRows (rows : List Row) (subset : List String) : List Row :=
  rows.filter (fun r => subset.all (fun c => !(r.get c).isna))

/-- `df.dropna(subset=subset)` as pandas performs it: raises `KeyError`
when a column of `subset` is not in the schema. -/
def DataFrame.dropnaSubset (df : DataFrame) (subset : List String) :
    Except String DataFrame :=
  if subset.all (fun c => c ∈ df.cols) then
    .ok ⟨df.cols, dropnaRows df.rows subset⟩
  else
    .error "KeyError"

/-! ## Numeric coercion (`pd.to_numeric(..., errors='coerce')`) -/

/-- Numeric value of a  decimal digit character. -/
def digitVal (ch : Char) : ℕ := ch.toNat - 48

/-- Accumulate a digit string into a natural number (callers guarantee the
characters are digits). -/
def natOfDigits (cs : List Char) : ℕ :=
  cs.foldl (fun acc ch => acc * 10 + digitVal ch) 0

/-- Parse an unsigned decimal literal (`"12"`, `"12.5"`, `".5"`, `"12."`).
Exponents and special floats are not modelled; an unsupported shape parses
to `none`, which the coercion turns into missing, exactly the `errors='coerce'`
outcome. -/
def parseUnsigned (cs : List Char) : Option ℚ :=
  let ip := cs.takeWhile (fun ch => ch ≠ '.')
  let rest := cs.dropWhile (fun ch => ch ≠ '.')
  if ip.all Char.isDigit then
    match rest with
    | [] => if ip.isEmpty then none else some ((natOfDigits ip : ℕ) : ℚ)
    | _ :: frac =>
      if frac.all Char.isDigit && !(ip.isEmpty && frac.isEmpty) then
        some (((natOfDigits ip : ℕ) : ℚ)
          + ((natOfDigits frac : ℕ) : ℚ) / ((10 : ℚ) ^ frac.length))
      else none
  else none

/-- Strip leading and trailing blanks (the whitespace tolerance of
`pd.to_numeric`), phrased on character lists so that it evaluates by kernel
reduction. -/
def trimChars (cs : List Char) : List Char :=
  ((cs.dropWhile (fun ch => ch = ' ')).reverse.dropWhile (fun ch => ch = ' ')).reverse

/-- Parse a (possibly signed, whitespace-trimmed) decimal string. -/
def parseRatString (s : String) : Option ℚ :=
  match trimChars s.toList with
  | '-' :: cs => (parseUnsigned cs).map (fun q => -q)
  | '+' :: cs => parseUnsigned cs
  | cs => parseUnsigned cs

/-- `pd.to_numeric(·, errors='coerce')` on one cell: numbers stay, a Python
bool is the number 0/1, missing stays missing, a string parses to a number
or becomes missing. -/
def toNumeric (v : Value) : Value :=
  match v with
  | .num q => .num q
  | .bool b => .num (if b then 1 else 0)
  | .na => .na
  | .str s =>
    match parseRatString s with
    | some q => .num q
    | none => .na

/-! ## The constants of `dashboard.py` -/

/-- `AI_COLS_CHECK`: columns whose joint presence enables the annotation views. -/
def AI_COLS_CHECK : List String := ["ai_theme", "ai_sentiment", "ai_notes"]

/-- `MOOD_COLS`: the configured numeric-feature set cleaned at load time. -/
def MOOD_COLS : List String :=
  ["mood_aggressive", "mood_happy", "mood_party", "mood_relaxed", "mood_sad"]

/-- The mood-column cleaning loop of `load_data_from_disk`: every configured
mood column that is present in the schema is coerced cell-wise. -/
def load_clean (df : DataFrame) : DataFrame :=
  (MOOD_COLS.filter (fun c => c ∈ df.cols)).foldl
    (fun d c => d.mapCol c toNumeric) df

/-! ## Annotation flag and identity columns (`main`, lines 151–168) -/

/-- The per-record condition of line 153:
`ai_theme.notna() & ~ai_theme.isin(['SKIPPED', 'ERROR'])`. -/
def hasAIFlag (v : Value) : Bool :=
  !v.isna && !(v == .str "SKIPPED" || v == .str "ERROR")

/-- `ai_available`: the three annotation columns are all in the schema. -/
def ai_available (df : DataFrame) : Bool :=
  AI_COLS_CHECK.all (fun c => c ∈ df.cols)

/-- Lines 151–156: derive the `has_ai_analysis` column; all-false when the
annotation columns are not all present. -/
def addHasAI (df : DataFrame) : DataFrame :=
  if AI_COLS_CHECK.all (fun c => c ∈ df.cols) then
    df.assign "has_ai_analysis" (fun r => .bool (hasAIFlag (r.get "ai_theme")))
  else
    df.assign "has_ai_analysis" (fun _ => .bool false)

/-- Lines 165–166: default the identity columns to the `'N/A'` placeholder
when absent from the schema. -/
def ensureIdCols (df : DataFrame) : DataFrame :=
  let d1 := if "track_name" ∈ df.cols then df
            else df.assign "track_name" (fun _ => .str "N/A")
  if "album_title" ∈ d1.cols then d1
  else d1.assign "album_title" (fun _ => .str "N/A")

/-- `fillna('N/A')` on one cell. -/
def fillnaStr (dflt : String) (v : Value) : Value :=
  if v.isna then .str dflt else v

/-- Rendering of a cell for string concatenation.  In the source the
identity cells are strings; a non-string identity cell would raise a
`TypeError` in pandas, modelled here by rendering the value. -/
def valStr : Value → String
  | .str s => s
  | .num q => toString q
  | .bool b => toString b
  | .na => "nan"

/-- Line 168: `display_name = track_name.fillna('N/A') + " | " + album_title.fillna('N/A')`. -/
def addDisplayName (df : DataFrame) : DataFrame :=
  df.assign "display_name" (fun r =>
    .str (valStr (fillnaStr "N/A" (r.get "track_name")) ++ " | "
      ++ valStr (fillnaStr "N/A" (r.get "album_title"))))

/-- The table `main` works on: the cleaned load result (`load_data_from_disk`)
followed by the derivations of lines 151–168. -/
def mainDf (df_raw : DataFrame) : DataFrame :=
  addDisplayName (ensureIdCols (addHasAI (load_clean df_raw)))

/-! ## Selection-list ordering (`main`, lines 170–187) -/

/-- Boolean reading of a cell (the `has_ai_analysis` sort key). -/
def rowBool (r : Row) (c : String) : Bool :=
  match r.get c with
  | .bool b => b
  | _ => false

/-- String reading of a cell (the `display_name` sort key). -/
def rowStr (r : Row) (c : String) : String :=
  match r.get c with
  | .str s => s
  | _ => ""

/-- The comparator of `sort_values(by=['has_ai_analysis', 'display_name'],
ascending=[False, True])`: annotated first, then by name. -/
def listLe (r1 r2 : Row) : Bool :=
  if rowBool r1 "has_ai_analysis" = rowBool r2 "has_ai_analysis" then
    rowStr r1 "display_name" ≤ rowStr r2 "display_name"
  else rowBool r1 "has_ai_analysis"

/-- `listLe` as a decidable relation for the sort. -/
def listLeRel : Row → Row → Prop := fun r1 r2 => listLe r1 r2 = true

instance : DecidableRel listLeRel := fun _ _ => instDecidableEqBool _ _

instance : IsTotal Row listLeRel where
  total a b := by
    unfold listLeRel listLe
    by_cases h : rowBool a "has_ai_analysis" = rowBool b "has_ai_analysis"
    · rw [if_pos h, if_pos h.symm]
      rcases le_total (rowStr a "display_name") (rowStr b "display_name") with hle | hle
      · exact Or.inl (by simpa using hle)
      · exact Or.inr (by simpa using hle)
    · rw [if_neg h, if_neg (fun e => h e.symm)]
      cases ha : rowBool a "has_ai_analysis"
      · cases hb : rowBool b "has_ai_analysis"
        · exact absurd (ha.trans hb.symm) h
        · exact Or.inr rfl
      · exact Or.inl rfl

instance : IsTrans Row listLeRel where
  trans a b c := by
    unfold listLeRel listLe
    intro hab hbc
    by_cases h1 : rowBool a "has_ai_analysis" = rowBool b "has_ai_analysis" <;>
      by_cases h2 : rowBool b "has_ai_analysis" = rowBool c "has_ai_analysis"
    · rw [if_pos h1] at hab
      rw [if_pos h2] at hbc
      rw [if_pos (h1.trans h2)]
      exact decide_eq_true
        (le_trans (of_decide_eq_true hab) (of_decide_eq_true hbc))
    · rw [if_neg h2] at hbc
      rw [if_neg (fun e => h2 (h1.symm.trans e))]
      rw [h1]
      exact hbc
    · rw [if_neg h1] at hab
      rw [if_neg (fun e => h1 (e.trans h2.symm))]
      exact hab
    · rw [if_neg h1] at hab
      rw [if_neg h2] at hbc
      exact absurd (hab.trans hbc.symm) h1

/-- The single-key comparator of the `else` branch (line 177). -/
def nameLeRel : Row → Row → Prop := fun r1 r2 =>
  rowStr r1 "display_name" ≤ rowStr r2 "display_name"

instance : DecidableRel nameLeRel := fun r1 r2 =>
  inferInstanceAs (Decidable (rowStr r1 "display_name" ≤ rowStr r2 "display_name"))

/-- Lines 170–177: the sorted listing order (a stable comparison sort;
pandas' multi-key `sort_values` is `np.lexsort`, also a stable sort). -/
def sortForList (df : DataFrame) : DataFrame :=
  if "has_ai_analysis" ∈ df.cols then
    ⟨df.cols, df.rows.insertionSort listLeRel⟩
  else
    ⟨df.cols, df.rows.insertionSort nameLeRel⟩

/-- First-occurrence deduplication, the behaviour of `Series.unique()`. -/
def uniqueAux {α : Type} [DecidableEq α] : List α → List α → List α
  | _, [] => []
  | seen, x :: xs =>
    if x ∈ seen then uniqueAux seen xs else x :: uniqueAux (x :: seen) xs

/-- `Series.unique().tolist()`: distinct entries in order of first occurrence. -/
def uniqueFirst {α : Type} [DecidableEq α] (l : List α) : List α :=
  uniqueAux [] l

/-- The sidebar sentinel, first entry of the selection list (line 181). -/
def sentinelEntry : String := "[ 主儀表板 (General Dashboard) ]"

/-- The `display_name` column as strings. -/
def displayNames (df : DataFrame) : List String :=
  df.rows.map (fun r => rowStr r "display_name")

/-- Line 179: `df_sorted_for_list['display_name'].unique().tolist()`. -/
def sorted_unique_names (df : DataFrame) : List String :=
  uniqueFirst (displayNames (sortForList df))

/-- Line 181: the full selection list, sentinel first. -/
def song_list (df : DataFrame) : List String :=
  sentinelEntry :: sorted_unique_names df

/-! ## Detail-view record resolution (`main`, lines 314–317) -/

/-- `df.loc[df['display_name'] == selected_song]`. -/
def findSongRows (df : DataFrame) (label : String) : List Row :=
  df.rows.filter (fun r => r.get "display_name" = .str label)

/-- Lines 315–320: `.iloc[0]` of the matching rows when non-empty, the
error branch (`none`) otherwise. -/
def selectSong (df : DataFrame) (label : String) : Option Row :=
  (findSongRows df label).head?

/-! ## Detail-view catch-all listing (`main`, lines 366–377) -/

/-- `s.endsWith suff`, phrased on character lists so it kernel-evaluates. -/
def strEndsWith (s suff : String) : Bool :=
  suff.toList.isSuffixOf s.toList

/-- The fixed exclusion list `manual_cols` of lines 366–370. -/
def manual_cols : List String :=
  ["track_name", "album_title", "lyrics_text", "作詞", "作曲", "製作", "編曲",
   "ai_theme", "ai_sentiment", "ai_notes", "display_name", "has_ai_analysis",
   "ai_sentiment_category"]

/-- Line 373: the dynamic exclusion of ephemeral columns. -/
def isTempCol (c : String) : Bool :=
  strEndsWith c "_bin" || c == "key_name" || c == "key_scale_combined"

/-- Lines 372–377: drop the manual and ephemeral labels, then `dropna()`. -/
def otherFields (song : Row) : Row :=
  (song.filter (fun p => !(decide (p.1 ∈ manual_cols) || isTempCol p.1))).filter
    (fun p => !p.2.isna)

/-! ## Aggregate charts (`plot_categorical_chart`, `plot_histogram`,
`plot_pie_chart`) -/

/-- Descending-count comparison used by `value_counts()`. -/
def countRel : (Value × ℕ) → (Value × ℕ) → Prop := fun a b => b.2 ≤ a.2

instance : DecidableRel countRel := fun _ _ => Nat.decLe _ _

/-- `Series.value_counts()`: occurrence counts of the distinct non-missing
values, sorted by descending count (a stable sort). -/
def value_counts (vs : List Value) : List (Value × ℕ) :=
  let kept := vs.filter (fun v => !v.isna)
  ((uniqueFirst kept).map (fun v => (v, kept.count v))).insertionSort countRel

/-- The fixed `key_map` lookup table of lines 62–65 / 269–272. -/
def key_map (q : ℚ) : Option String :=
  if q = 0 then some "C" else if q = 1 then some "C#" else if q = 2 then some "D"
  else if q = 3 then some "D#" else if q = 4 then some "E" else if q = 5 then some "F"
  else if q = 6 then some "F#" else if q = 7 then some "G" else if q = 8 then some "G#"
  else if q = 9 then some "A" else if q = 10 then some "A#" else if q = 11 then some "B"
  else none

/-- `key_map.get(x, pd.NA)` (line 66).  A Python bool equals `0`/`1` as a
dict key, so it hits the table. -/
def keyNameVal : Value → Value
  | .num q =>
    match key_map q with
    | some s => .str s
    | none => .na
  | .bool b => .str (if b then "C#" else "C")
  | _ => .na

/-- `key_map.get(x, 'N/A')` (line 274), the combined-chart variant: the
default is the literal string `'N/A'`, not a missing value. -/
def keyNameNA : Value → String
  | .num q => (key_map q).getD "N/A"
  | .bool b => if b then "C#" else "C"
  | _ => "N/A"

/-- Lines 59–67 for `column == 'key_key'`: drop missing keys, map them
through `key_map` into the ephemeral `key_name` column (on the copy), and
drop the rows whose mapped name is missing. -/
def keyChartData (df : DataFrame) : DataFrame :=
  let data : DataFrame := ⟨df.cols, dropnaRows df.rows ["key_key"]⟩
  let data2 := data.assign "key_name" (fun r => keyNameVal (r.get "key_key"))
  ⟨data2.cols, dropnaRows data2.rows ["key_name"]⟩

/-- The `key_name` labels the standalone key chart counts. -/
def keyChartLabels (df : DataFrame) : List Value :=
  colVals (keyChartData df) "key_name"

/-- `plot_categorical_chart` (lines 56–85), up to its chart data: `none`
is the skipped chart, `some` carries the `(value, count)` rows of the bar
chart. -/
def plot_categorical_chart (df : DataFrame) (column : String) (top_n : ℕ) :
    Option (List (Value × ℕ)) :=
  if column ∉ df.cols ∨ (colVals df column).filter (fun v => !v.isna) = [] then none else
  if column = "key_key" then
    if (keyChartData df).rows = [] then none
    else
      let cd := (value_counts (keyChartLabels df)).take top_n
      if cd = [] then none else some cd
  else
    let data : DataFrame := ⟨df.cols, dropnaRows df.rows [column]⟩
    if data.rows = [] then none
    else
      let cd := (value_counts (colVals data column)).take top_n
      if cd = [] then none else some cd

/-- `plot_histogram` (lines 88–102), up to its chart data: the kept
(non-missing) values that the fixed-bin histogram is drawn from. -/
def plot_histogram (df : DataFrame) (column : String) : Option (List Value) :=
  if column ∉ df.cols ∨ (colVals df column).filter (fun v => !v.isna) = [] then none else
  let data : DataFrame := ⟨df.cols, dropnaRows df.rows [column]⟩
  if data.rows = [] then none else some (colVals data column)

/-- `plot_pie_chart` (lines 105–133), up to its chart data: each kept entry
carries its count and its share `count / total` of the kept total. -/
def plot_pie_chart (df : DataFrame) (column : String) (top_n : ℕ) :
    Option (List (Value × ℕ × ℚ)) :=
  if column ∉ df.cols ∨ (colVals df column).filter (fun v => !v.isna) = [] then none else
  let data : DataFrame := ⟨df.cols, dropnaRows df.rows [column]⟩
  if data.rows = [] then none else
  let cd := (value_counts (colVals data column)).take top_n
  if cd = [] then none else
  let total : ℕ := (cd.map (fun p => p.2)).sum
  some (cd.map (fun p => (p.1, p.2, (p.2 : ℚ) / (total : ℚ))))

/-! ## The combined key+scale chart and the mood charts (`main`,
lines 265–308) -/

/-- Lines 273–275: the ephemeral `key_name` and `key_scale_combined`
columns, written on the dropped copy.  An out-of-table key value becomes
the literal string `'N/A'` (the row is kept).  A non-string `key_scale`
cell would raise in the pandas string concatenation, modelled as a missing
combined label. -/
def ksCombined (df : DataFrame) : DataFrame :=
  let d1 := df.assign "key_name" (fun r => .str (keyNameNA (r.get "key_key")))
  d1.assign "key_scale_combined" (fun r =>
    match r.get "key_name", r.get "key_scale" with
    | .str a, .str b => .str (a ++ " " ++ b)
    | _, _ => .na)

/-- The `key_scale_combined` labels the combined pie chart counts. -/
def ksCombinedLabels (df : DataFrame) : List Value :=
  colVals (ksCombined df) "key_scale_combined"

/-- Lines 267–278: the combined key+scale pie.  `dropna(subset=...)` raises
`KeyError` when either column is absent from the schema. -/
def keyScaleBlock (df : DataFrame) :
    Except String (Option (List (Value × ℕ × ℚ))) :=
  match df.dropnaSubset ["key_key", "key_scale"] with
  | .error e => .error e
  | .ok dfks =>
    if dfks.rows = [] then .ok none
    else .ok (plot_pie_chart (ksCombined dfks) "key_scale_combined" 10)

/-- Line 297: `df_mood = df.dropna(subset=[mood_col]).copy()`. -/
def moodDf (df : DataFrame) (c : String) : DataFrame :=
  ⟨df.cols, dropnaRows df.rows [c]⟩

/-- One cell of `np.where(df[col] >= 0.5, '高 (>=0.5)', '低 (<0.5)')`, with
numpy comparison semantics: `NaN >= 0.5` is false, a bool is `0`/`1`; the
string case (which raises in numpy) is handled in `moodChartE`. -/
def moodBinCell (v : Value) : Value :=
  match v with
  | .num q => .str (if (1:ℚ)/2 ≤ q then "高 (>=0.5)" else "低 (<0.5)")
  | .bool b => .str (if b then "高 (>=0.5)" else "低 (<0.5)")
  | _ => .str "低 (<0.5)"

/-- Line 301: the ephemeral binarized column, written on the copy. -/
def moodDf2 (df : DataFrame) (c : String) : DataFrame :=
  (moodDf df c).assign (c ++ "_bin") (fun r => moodBinCell (r.get c))

/-- The label column fed to the mood pie chart. -/
def moodBinLabels (df : DataFrame) (c : String) : List Value :=
  colVals (moodDf2 df c) (c ++ "_bin")

/-- Lines 294–304 for one mood column: no chart when empty after `dropna`;
a string cell makes the numpy comparison raise (`TypeError`); otherwise
binarize on the copy and hand the ephemeral column to the pie chart. -/
def moodChartE (df : DataFrame) (c : String) :
    Except String (Option (List (Value × ℕ × ℚ))) :=
  if (moodDf df c).rows = [] then .ok none
  else if (moodDf df c).rows.any (fun r => (r.get c).isStr) then .error "TypeError"
  else .ok (plot_pie_chart (moodDf2 df c) (c ++ "_bin") 10)

/-- The chart descriptors of one overview render. -/
structure OverviewCharts where
  genre : Option (List (Value × ℕ))
  keyScale : Option (List (Value × ℕ × ℚ))
  timbre : Option (List (Value × ℕ × ℚ))
  moods : List (Option (List (Value × ℕ × ℚ)))
  dance : Option (List Value)
deriving DecidableEq, Repr

/-- Lines 259–308: the chart part of the overview render, in source order;
an exception from the key+scale block or a mood chart aborts the render. -/
def overviewCharts (df : DataFrame) : Except String OverviewCharts := do
  let genre := plot_categorical_chart df "genre_ros" 15
  let ks ← keyScaleBlock df
  let timbre := plot_pie_chart df "timbre" 10
  let moods ← (MOOD_COLS.filter (fun c => c ∈ df.cols)).mapM (fun c => moodChartE df c)
  let dance := plot_histogram df "danceability"
  pure ⟨genre, ks, timbre, moods, dance⟩

/-! ## Concrete tables used by witnesses and counterexamples -/

/-- A three-row table with all annotation columns present. -/
def dfAnnEx : DataFrame :=
  ⟨["ai_theme", "ai_sentiment", "ai_notes"],
   [[("ai_theme", .str "love"), ("ai_sentiment", .str "positive"), ("ai_notes", .str "ok")],
    [("ai_theme", .str "SKIPPED"), ("ai_sentiment", .na), ("ai_notes", .na)],
    [("ai_theme", .na), ("ai_sentiment", .na), ("ai_notes", .na)]]⟩

/-- A table with one mood column holding an unparsable string, a number and
a missing value. -/
def dfMoodEx : DataFrame :=
  ⟨["mood_happy"],
   [[("mood_happy", .str "abc")], [("mood_happy", .num 1)], [("mood_happy", .na)]]⟩

/-- A table whose `danceability` column holds an unparsable string. -/
def dfDanceBad : DataFrame :=
  ⟨["danceability"], [[("danceability", .str "abc")]]⟩

/-- A table without the `key_key` / `key_scale` columns. -/
def dfNoKey : DataFrame :=
  ⟨["track_name", "album_title"],
   [[("track_name", .str "song"), ("album_title", .str "alb")]]⟩

/-- A table whose only record has the out-of-table key index `12.0`. -/
def dfKey12 : DataFrame :=
  ⟨["key_key", "key_scale"],
   [[("key_key", .num 12), ("key_scale", .str "major")]]⟩

/-- A one-record table with a `timbre` value. -/
def dfTimbreEx : DataFrame :=
  ⟨["timbre"], [[("timbre", .str "dark")]]⟩

/-- A table in which two records share a `display_name`. -/
def dfDupEx : DataFrame :=
  ⟨["display_name", "idx"],
   [[("display_name", .str "A | B"), ("idx", .str "one")],
    [("display_name", .str "A | B"), ("idx", .str "two")],
    [("display_name", .str "C | D"), ("idx", .str "three")]]⟩

/-- A one-record raw table with identity columns. -/
def dfTiny : DataFrame :=
  ⟨["track_name", "album_title"],
   [[("track_name", .str "Song"), ("album_title", .str "Alb")]]⟩

/-- A selected record carrying ephemeral chart columns next to real fields. -/
def songRowEx : Row :=
  [("track_name", .str "t"), ("tempo", .str "120"),
   ("mood_happy_bin", .str "x"), ("key_name", .str "C"),
   ("key_scale_combined", .str "C major"), ("loudness", .na)]

/-! ## Basic lemmas about rows and column operations -/

theorem Row.get_setCell_self (r : Row) (c : String) (v : Value) :
    (r.setCell c v).get c = v := by
  induction r with
  | nil => simp [Row.setCell, Row.get]
  | cons p r ih =>
    by_cases h : p.1 = c
    · simp [Row.setCell, Row.get, h]
    · simp [Row.setCell, Row.get, h, ih]

theorem Row.get_setCell_ne (r : Row) (c c' : String) (v : Value) (h : c' ≠ c) :
    (r.setCell c v).get c' = r.get c' := by
  have h2 : c ≠ c' := Ne.symm h
  induction r with
  | nil => simp [Row.setCell, Row.get, h2]
  | cons p r ih =>
    by_cases hp : p.1 = c
    · simp [Row.setCell, Row.get, hp, h2]
    · simp [Row.setCell, Row.get, hp, ih]

theorem colVals_assign_self (df : DataFrame) (c : String) (f : Row → Value) :
    colVals (df.assign c f) c = df.rows.map f := by
  simp [colVals, DataFrame.assign, Row.get_setCell_self]

theorem colVals_assign_ne (df : DataFrame) (c c' : String) (f : Row → Value)
    (h : c' ≠ c) : colVals (df.assign c f) c' = colVals df c' := by
  simp [colVals, DataFrame.assign, Row.get_setCell_ne _ _ _ _ h]

theorem colVals_mapCol_self (df : DataFrame) (c : String) (g : Value → Value) :
    colVals (df.mapCol c g) c = (colVals df c).map g := by
  simp [colVals, DataFrame.mapCol, Row.get_setCell_self]

theorem colVals_mapCol_ne (df : DataFrame) (c c' : String) (g : Value → Value)
    (h : c' ≠ c) : colVals (df.mapCol c g) c' = colVals df c' := by
  simp [colVals, DataFrame.mapCol, Row.get_setCell_ne _ _ _ _ h]

theorem mem_cols_assign_self (df : DataFrame) (c : String) (f : Row → Value) :
    c ∈ (df.assign c f).cols := by
  simp only [DataFrame.assign]
  split <;> simp [*]

theorem mem_cols_assign_of_mem (df : DataFrame) (c c' : String) (f : Row → Value)
    (h : c' ∈ df.cols) : c' ∈ (df.assign c f).cols := by
  simp only [DataFrame.assign]
  split <;> simp [h]

theorem cols_mapCol (df : DataFrame) (c : String) (g : Value → Value) :
    (df.mapCol c g).cols = df.cols := rfl

theorem cols_foldl_mapCol (l : List String) (df : DataFrame) (g : Value → Value) :
    (l.foldl (fun d c => d.mapCol c g) df).cols = df.cols := by
  induction l generalizing df with
  | nil => rfl
  | cons c cs ih => simp [List.foldl, ih, cols_mapCol]

theorem cols_load_clean (df : DataFrame) : (load_clean df).cols = df.cols := by
  unfold load_clean
  exact cols_foldl_mapCol _ _ _

/-! ## Lemmas about `uniqueFirst` -/

theorem mem_uniqueAux {α : Type} [DecidableEq α] (seen l : List α) (x : α) :
    x ∈ uniqueAux seen l ↔ x ∈ l ∧ x ∉ seen := by
  induction l generalizing seen with
  | nil => simp [uniqueAux]
  | cons a l ih =>
    by_cases h : a ∈ seen
    · rw [show uniqueAux seen (a :: l) = uniqueAux seen l by simp [uniqueAux, h], ih]
      constructor
      · rintro ⟨hx, hs⟩
        exact ⟨List.mem_cons_of_mem _ hx, hs⟩
      · rintro ⟨hx, hs⟩
        rcases List.mem_cons.mp hx with e | hx2
        · exact absurd (e ▸ h) hs
        · exact ⟨hx2, hs⟩
    · rw [show uniqueAux seen (a :: l) = a :: uniqueAux (a :: seen) l by
        simp [uniqueAux, h]]
      simp only [List.mem_cons, ih]
      constructor
      · rintro (e | ⟨hx, hs⟩)
        · exact ⟨Or.inl e, e ▸ h⟩
        · exact ⟨Or.inr hx, fun hm => hs (Or.inr hm)⟩
      · rintro ⟨e | hx, hs⟩
        · exact Or.inl e
        · by_cases hxa : x = a
          · exact Or.inl hxa
          · exact Or.inr ⟨hx, fun hm => hm.elim hxa hs⟩

theorem nodup_uniqueAux {α : Type} [DecidableEq α] (seen l : List α) :
    (uniqueAux seen l).Nodup := by
  induction l generalizing seen with
  | nil => simp [uniqueAux]
  | cons a l ih =>
    by_cases h : a ∈ seen
    · simpa [uniqueAux, h] using ih seen
    · rw [show uniqueAux seen (a :: l) = a :: uniqueAux (a :: seen) l by
        simp [uniqueAux, h]]
      refine List.nodup_cons.mpr ⟨?_, ih _⟩
      intro hmem
      exact ((mem_uniqueAux _ _ _).mp hmem).2 (List.mem_cons_self a seen)

theorem mem_uniqueFirst {α : Type} [DecidableEq α] (l : List α) (x : α) :
    x ∈ uniqueFirst l ↔ x ∈ l := by
  simp [uniqueFirst, mem_uniqueAux]

theorem nodup_uniqueFirst {α : Type} [DecidableEq α] (l : List α) :
    (uniqueFirst l).Nodup := nodup_uniqueAux [] l

theorem length_uniqueFirst {α : Type} [DecidableEq α] (l : List α) :
    (uniqueFirst l).length = l.toFinset.card := by
  have h1 : (uniqueFirst l).toFinset = l.toFinset := by
    ext x
    simp [List.mem_toFinset, mem_uniqueFirst]
  rw [← h1, List.toFinset_card_of_nodup (nodup_uniqueFirst l)]

/-! ## Lemmas about `dropna` on a single column -/

theorem colVals_dropna_single (rows : List Row) (c : String) :
    (dropnaRows rows [c]).map (fun r => r.get c)
      = (rows.map (fun r => r.get c)).filter (fun v => !v.isna) := by
  rw [List.filter_map]
  unfold dropnaRows
  congr 1
  apply List.filter_congr
  intro r _
  simp [Function.comp]

/-! ## Column preservation along the `main` pipeline -/

theorem colVals_ensureIdCols_ne (df : DataFrame) (c : String)
    (h1 : c ≠ "track_name") (h2 : c ≠ "album_title") :
    colVals (ensureIdCols df) c = colVals df c := by
  unfold ensureIdCols
  by_cases ha : "track_name" ∈ df.cols
  · by_cases hb : "album_title" ∈ df.cols
    · simp [ha, hb]
    · simp [ha, hb, colVals_assign_ne _ _ _ _ h2]
  · by_cases hb : "album_title" ∈ (df.assign "track_name" (fun _ => Value.str "N/A")).cols
    · simp [ha, hb, colVals_assign_ne _ _ _ _ h1]
    · simp [ha, hb, colVals_assign_ne _ _ _ _ h1, colVals_assign_ne _ _ _ _ h2]

theorem colVals_addHasAI_ne (df : DataFrame) (c : String)
    (h : c ≠ "has_ai_analysis") :
    colVals (addHasAI df) c = colVals df c := by
  unfold addHasAI
  split_ifs <;> exact colVals_assign_ne _ _ _ _ h

theorem colVals_addDisplayName_ne (df : DataFrame) (c : String)
    (h : c ≠ "display_name") :
    colVals (addDisplayName df) c = colVals df c :=
  colVals_assign_ne _ _ _ _ h

theorem colVals_foldl_mapCol_notMem (l : List String) (df : DataFrame)
    (g : Value → Value) (c : String) (hc : c ∉ l) :
    colVals (l.foldl (fun d c2 => d.mapCol c2 g) df) c = colVals df c := by
  induction l generalizing df with
  | nil => rfl
  | cons a l ih =>
    have hne : c ≠ a := fun e => hc (e ▸ List.mem_cons_self a l)
    have hnotl : c ∉ l := fun hm => hc (List.mem_cons_of_mem _ hm)
    simp only [List.foldl_cons]
    rw [ih _ hnotl, colVals_mapCol_ne _ _ _ _ hne]

theorem colVals_foldl_mapCol_mem (l : List String) (df : DataFrame)
    (g : Value → Value) (c : String) (hnd : l.Nodup) (hc : c ∈ l) :
    colVals (l.foldl (fun d c2 => d.mapCol c2 g) df) c = (colVals df c).map g := by
  induction l generalizing df with
  | nil => exact absurd hc (List.not_mem_nil c)
  | cons a l ih =>
    simp only [List.foldl_cons]
    rcases List.mem_cons.mp hc with e | hcl
    · subst e
      have hnotl : c ∉ l := (List.nodup_cons.mp hnd).1
      rw [colVals_foldl_mapCol_notMem _ _ _ _ hnotl, colVals_mapCol_self]
    · have hne : c ≠ a := fun e => (List.nodup_cons.mp hnd).1 (e ▸ hcl)
      rw [ih _ (List.nodup_cons.mp hnd).2 hcl, colVals_mapCol_ne _ _ _ _ hne]

theorem colVals_load_clean_mem (df : DataFrame) (c : String)
    (hc : c ∈ MOOD_COLS) (hin : c ∈ df.cols) :
    colVals (load_clean df) c = (colVals df c).map toNumeric := by
  unfold load_clean
  apply colVals_foldl_mapCol_mem
  · exact List.Nodup.filter _ (by decide)
  · simp [List.mem_filter, hc, hin]

theorem colVals_mainDf_eq_clean (df : DataFrame) (c : String)
    (h1 : c ≠ "display_name") (h2 : c ≠ "track_name") (h3 : c ≠ "album_title")
    (h4 : c ≠ "has_ai_analysis") :
    colVals (mainDf df) c = colVals (load_clean df) c := by
  unfold mainDf
  rw [colVals_addDisplayName_ne _ _ h1, colVals_ensureIdCols_ne _ _ h2 h3,
    colVals_addHasAI_ne _ _ h4]

/-! ## Totality of the numeric coercion -/

theorem toNumeric_num_or_na (v : Value) :
    (toNumeric v).isNum = true ∨ toNumeric v = Value.na := by
  cases v with
  | num q => exact Or.inl rfl
  | bool b => exact Or.inl rfl
  | na => exact Or.inr rfl
  | str s =>
    cases h : parseRatString s with
    | some q => left; simp [toNumeric, h, Value.isNum]
    | none => right; simp [toNumeric, h]

/-! ## Claim C1 -/

/-- **C1.** When the three annotation columns are all present,
`has_ai_analysis` holds of a record iff its `ai_theme` is non-missing and
differs from both sentinel strings; when any of the three is absent, the
flag is false for every record and `ai_available` (the session-wide switch
for annotation-derived views) is false by definition. -/
theorem c1_has_ai_flag_iff (df : DataFrame) :
    (ai_available df = true →
      colVals (addHasAI df) "has_ai_analysis"
        = df.rows.map (fun r => Value.bool (hasAIFlag (r.get "ai_theme"))))
    ∧ (ai_available df = false →
      colVals (addHasAI df) "has_ai_analysis"
        = df.rows.map (fun _ => Value.bool false))
    ∧ (∀ v : Value, hasAIFlag v = true ↔
        (v.isna = false ∧ v ≠ Value.str "SKIPPED" ∧ v ≠ Value.str "ERROR")) := by
  refine ⟨?_, ?_, ?_⟩
  · intro h
    have h2 : (AI_COLS_CHECK.all fun c => c ∈ df.cols) = true := h
    unfold addHasAI
    rw [if_pos h2]
    exact colVals_assign_self _ _ _
  · intro h
    have h2 : (AI_COLS_CHECK.all fun c => c ∈ df.cols) = false := h
    unfold addHasAI
    rw [if_neg (by simp [h2])]
    exact colVals_assign_self _ _ _
  · intro v
    cases v <;> simp [hasAIFlag, Value.isna]

/-- Witness for C1 at a concrete three-row table. -/
theorem c1_has_ai_flag_iff_witness :
    ai_available dfAnnEx = true ∧
      colVals (addHasAI dfAnnEx) "has_ai_analysis"
        = dfAnnEx.rows.map (fun r => Value.bool (hasAIFlag (r.get "ai_theme"))) :=
  ⟨by decide, (c1_has_ai_flag_iff dfAnnEx).1 (by decide)⟩

/-! ## Claim C2 -/

/-- **C2 (amended).** Load-time coercion is total for the columns the load
step actually cleans — the configured mood columns: each cell becomes a
number or missing, and cleaning never fails.  (The claim's inclusion of
`danceability` and the key index fails: see the counterexample.) -/
theorem c2_mood_coercion_total (df : DataFrame) (c : String)
    (hc : c ∈ MOOD_COLS) (hin : c ∈ df.cols) :
    (∀ v : Value, (toNumeric v).isNum = true ∨ toNumeric v = Value.na)
    ∧ ∀ v ∈ colVals (load_clean df) c, v.isNum = true ∨ v = Value.na := by
  refine ⟨toNumeric_num_or_na, ?_⟩
  intro v hv
  rw [colVals_load_clean_mem df c hc hin] at hv
  rcases List.mem_map.mp hv with ⟨w, _, rfl⟩
  exact toNumeric_num_or_na w

/-- Counterexample to C2 as stated: an unparsable `danceability` value
survives the load as a string — neither a number nor missing — because the
load step cleans only the mood columns. -/
theorem c2_counterexample :
    (colVals (load_clean dfDanceBad) "danceability").all
        (fun v => v.isNum || v.isna) = false := by decide

/-- Witness for C2 (amended) at a concrete mood column. -/
theorem c2_mood_coercion_total_witness :
    ("mood_happy" ∈ MOOD_COLS ∧ "mood_happy" ∈ dfMoodEx.cols)
    ∧ ((∀ v : Value, (toNumeric v).isNum = true ∨ toNumeric v = Value.na)
      ∧ ∀ v ∈ colVals (load_clean dfMoodEx) "mood_happy",
          v.isNum = true ∨ v = Value.na) :=
  ⟨⟨by decide, by decide⟩,
   c2_mood_coercion_total dfMoodEx "mood_happy" (by decide) (by decide)⟩

/-! ## Claim C4 -/

/-- **C4 (amended).** Every chart drawn through the three guarded helpers
degrades to "no chart" when its column is absent from the schema or entirely
missing; but the combined key+scale block, which calls
`dropna(subset=['key_key','key_scale'])` unguarded, raises `KeyError` when
either column is absent, aborting the whole overview render. -/
theorem c4_absent_column_amended :
    (∀ (df : DataFrame) (c : String) (n : ℕ),
        (c ∉ df.cols ∨ (colVals df c).filter (fun v => !v.isna) = []) →
        plot_categorical_chart df c n = none
          ∧ plot_histogram df c = none ∧ plot_pie_chart df c n = none)
    ∧ (∀ df : DataFrame, ("key_key" ∉ df.cols ∨ "key_scale" ∉ df.cols) →
        keyScaleBlock df = .error "KeyError"
          ∧ overviewCharts df = .error "KeyError") := by
  constructor
  · intro df c n h
    refine ⟨?_, ?_, ?_⟩
    · unfold plot_categorical_chart
      rw [if_pos h]
    · unfold plot_histogram
      rw [if_pos h]
    · unfold plot_pie_chart
      rw [if_pos h]
  · intro df h
    have hds : df.dropnaSubset ["key_key", "key_scale"] = .error "KeyError" := by
      unfold DataFrame.dropnaSubset
      rw [if_neg (by rcases h with h | h <;> simp [List.all_cons, h])]
    have hks : keyScaleBlock df = .error "KeyError" := by
      unfold keyScaleBlock
      rw [hds]
    refine ⟨hks, ?_⟩
    unfold overviewCharts
    rw [hks]
    rfl

/-- Counterexample to C4 as stated: a loaded table without `key_key` /
`key_scale` makes the overview render raise `KeyError` at
`df.dropna(subset=['key_key','key_scale'])` instead of skipping that chart. -/
theorem c4_counterexample :
    overviewCharts (mainDf dfNoKey) = .error "KeyError" := by rfl

/-- Witness for C4 (amended) at a concrete table. -/
theorem c4_absent_column_amended_witness :
    (("genre_ros" ∉ dfNoKey.cols
        ∨ (colVals dfNoKey "genre_ros").filter (fun v => !v.isna) = [])
      ∧ (plot_categorical_chart dfNoKey "genre_ros" 15 = none
        ∧ plot_histogram dfNoKey "genre_ros" = none
        ∧ plot_pie_chart dfNoKey "genre_ros" 15 = none))
    ∧ (("key_key" ∉ dfNoKey.cols ∨ "key_scale" ∉ dfNoKey.cols)
      ∧ (keyScaleBlock dfNoKey = .error "KeyError"
        ∧ overviewCharts dfNoKey = .error "KeyError")) :=
  ⟨⟨Or.inl (by decide),
    c4_absent_column_amended.1 dfNoKey "genre_ros" 15 (Or.inl (by decide))⟩,
   ⟨Or.inl (by decide),
    c4_absent_column_amended.2 dfNoKey (Or.inl (by decide))⟩⟩

/-! ## Claim C6 -/

theorem value_counts_pos (vs : List Value) (p : Value × ℕ)
    (hp : p ∈ value_counts vs) : 1 ≤ p.2 := by
  unfold value_counts at hp
  rw [List.mem_insertionSort] at hp
  rcases List.mem_map.mp hp with ⟨v, hv, rfl⟩
  have hmem : v ∈ vs.filter (fun v => !v.isna) := (mem_uniqueFirst _ _).mp hv
  simpa using List.count_pos_iff.mpr hmem

theorem sum_map_div (cd : List (Value × ℕ)) (T : ℚ) :
    (cd.map (fun p => (p.2 : ℚ) / T)).sum
      = (cd.map (fun p => ((p.2 : ℕ) : ℚ))).sum / T := by
  induction cd with
  | nil => simp
  | cons p cd ih => simp [ih, add_div]

theorem pie_aux (cd : List (Value × ℕ)) (hne : cd ≠ [])
    (hpos : ∀ p ∈ cd, 1 ≤ p.2) :
    ((cd.map (fun p =>
        (p.1, p.2, (p.2 : ℚ) / (((cd.map (fun p => p.2)).sum : ℕ) : ℚ)))).map
      (fun p => p.2.2)).sum = 1 := by
  have hT : 1 ≤ (cd.map (fun p => p.2)).sum := by
    cases cd with
    | nil => exact absurd rfl hne
    | cons p cd =>
      have h1 := hpos p (List.mem_cons_self _ _)
      simp only [List.map_cons, List.sum_cons]
      omega
  have hT0 : (((cd.map (fun p => p.2)).sum : ℕ) : ℚ) ≠ 0 :=
    Nat.cast_ne_zero.mpr (by omega)
  rw [List.map_map]
  have hcomp : ((fun p : Value × ℕ × ℚ => p.2.2)
      ∘ (fun p : Value × ℕ =>
        (p.1, p.2, (p.2 : ℚ) / (((cd.map (fun p => p.2)).sum : ℕ) : ℚ))))
      = fun p : Value × ℕ => (p.2 : ℚ) / (((cd.map (fun p => p.2)).sum : ℕ) : ℚ) := rfl
  rw [hcomp, sum_map_div]
  rw [show (cd.map (fun p : Value × ℕ => ((p.2 : ℕ) : ℚ))).sum
      = (((cd.map (fun p => p.2)).sum : ℕ) : ℚ) by
    rw [Nat.cast_list_sum, List.map_map]; rfl]
  exact div_self hT0

/-- **C6.** Whenever the pie-chart helper produces a chart, the attached
percentages are shares of the kept (top-N) total, so they sum to exactly 1. -/
theorem c6_pie_percent_sum (df : DataFrame) (column : String) (top_n : ℕ)
    (l : List (Value × ℕ × ℚ)) (h : plot_pie_chart df column top_n = some l) :
    (l.map (fun p => p.2.2)).sum = 1 := by
  simp only [plot_pie_chart] at h
  split at h
  · exact absurd h (by simp)
  split at h
  · exact absurd h (by simp)
  split at h
  · exact absurd h (by simp)
  rename_i hcd
  rw [Option.some.injEq] at h
  subst h
  exact pie_aux _ hcd (fun p hp => value_counts_pos _ p (List.mem_of_mem_take hp))

/-- Witness for C6 at a concrete one-record table. -/
theorem c6_pie_percent_sum_witness :
    plot_pie_chart dfTimbreEx "timbre" 10
        = some [(Value.str "dark", 1, ((1:ℕ):ℚ) / ((1:ℕ):ℚ))]
    ∧ (([(Value.str "dark", 1, ((1:ℕ):ℚ) / ((1:ℕ):ℚ))].map
        (fun p => p.2.2)).sum = 1) :=
  ⟨rfl, c6_pie_percent_sum dfTimbreEx "timbre" 10 _ rfl⟩

/-! ## Claim C8 -/

theorem filter_head_first {α : Type} (p : α → Bool) (l : List α)
    (hne : (l.filter p) ≠ []) :
    ∃ i, ∃ hi : i < l.length,
      (l.filter p).head? = some (l.get ⟨i, hi⟩) ∧ p (l.get ⟨i, hi⟩) = true
      ∧ ∀ j (hj : j < i), p (l.get ⟨j, Nat.lt_trans hj hi⟩) = false := by
  induction l with
  | nil => simp [List.filter] at hne
  | cons a l ih =>
    by_cases hp : p a
    · exact ⟨0, by simp, by simp [List.filter_cons, hp],
        by simpa using hp, fun j hj => absurd hj (Nat.not_lt_zero j)⟩
    · have hp0 : p a = false := by simpa using hp
      have hne2 : l.filter p ≠ [] := by
        simpa [List.filter_cons, hp0] using hne
      rcases ih hne2 with ⟨i, hi, h1, h2, h3⟩
      refine ⟨i + 1, by simpa using Nat.succ_lt_succ hi, ?_, ?_, ?_⟩
      · simpa [List.filter_cons, hp0] using h1
      · simpa using h2
      · intro j hj
        cases j with
        | zero => simpa using hp0
        | succ j2 =>
          have h4 := h3 j2 (Nat.lt_of_succ_lt_succ hj)
          simpa using h4

/-- **C8.** When at least two records share the selected `display_label`,
the detail view resolves to the first matching record in underlying record
order (deterministically — resolution is a pure function of the table and
the label). -/
theorem c8_first_match (df : DataFrame) (label : String)
    (hdup : 2 ≤ (findSongRows df label).length) :
    ∃ i, ∃ hi : i < df.rows.length,
      selectSong df label = some (df.rows.get ⟨i, hi⟩)
      ∧ (df.rows.get ⟨i, hi⟩).get "display_name" = Value.str label
      ∧ ∀ j (hj : j < i),
          (df.rows.get ⟨j, Nat.lt_trans hj hi⟩).get "display_name"
            ≠ Value.str label := by
  have hne : findSongRows df label ≠ [] := by
    intro e
    rw [e] at hdup
    simp at hdup
  rcases filter_head_first _ df.rows hne with ⟨i, hi, h1, h2, h3⟩
  exact ⟨i, hi, h1, of_decide_eq_true h2,
    fun j hj => of_decide_eq_false (h3 j hj)⟩

/-- Witness for C8 at a table with two records sharing a label. -/
theorem c8_first_match_witness :
    2 ≤ (findSongRows dfDupEx "A | B").length
    ∧ ∃ i, ∃ hi : i < dfDupEx.rows.length,
        selectSong dfDupEx "A | B" = some (dfDupEx.rows.get ⟨i, hi⟩)
        ∧ (dfDupEx.rows.get ⟨i, hi⟩).get "display_name" = Value.str "A | B"
        ∧ ∀ j (hj : j < i),
            (dfDupEx.rows.get ⟨j, Nat.lt_trans hj hi⟩).get "display_name"
              ≠ Value.str "A | B" :=
  ⟨by decide, c8_first_match dfDupEx "A | B" (by decide)⟩

/-! ## Claim C9 -/

theorem mem_cols_assign_elim (df : DataFrame) (c c' : String) (f : Row → Value)
    (h : c' ∈ (df.assign c f).cols) : c' ∈ df.cols ∨ c' = c := by
  simp only [DataFrame.assign] at h
  by_cases hc : c ∈ df.cols
  · rw [if_pos hc] at h
    exact Or.inl h
  · rw [if_neg hc] at h
    rcases List.mem_append.mp h with h | h
    · exact Or.inl h
    · simp only [List.mem_singleton] at h
      exact Or.inr h

theorem mem_cols_ensureIdCols_elim (df : DataFrame) (c : String)
    (h : c ∈ (ensureIdCols df).cols) :
    c ∈ df.cols ∨ c = "track_name" ∨ c = "album_title" := by
  unfold ensureIdCols at h
  by_cases ha : "track_name" ∈ df.cols
  · rw [if_pos ha] at h
    by_cases hb : "album_title" ∈ df.cols
    · rw [if_pos hb] at h
      exact Or.inl h
    · rw [if_neg hb] at h
      rcases mem_cols_assign_elim _ _ _ _ h with h | h
      · exact Or.inl h
      · exact Or.inr (Or.inr h)
  · rw [if_neg ha] at h
    by_cases hb : "album_title" ∈ (df.assign "track_name" fun _ => Value.str "N/A").cols
    · rw [if_pos hb] at h
      rcases mem_cols_assign_elim _ _ _ _ h with h | h
      · exact Or.inl h
      · exact Or.inr (Or.inl h)
    · rw [if_neg hb] at h
      rcases mem_cols_assign_elim _ _ _ _ h with h | h
      · rcases mem_cols_assign_elim _ _ _ _ h with h | h
        · exact Or.inl h
        · exact Or.inr (Or.inl h)
      · exact Or.inr (Or.inr h)

theorem mem_cols_mainDf_elim (df0 : DataFrame) (c : String)
    (h : c ∈ (mainDf df0).cols) :
    c ∈ df0.cols
      ∨ c ∈ ["has_ai_analysis", "track_name", "album_title", "display_name"] := by
  unfold mainDf at h
  rcases mem_cols_assign_elim _ _ _ _ h with h | h
  · rcases mem_cols_ensureIdCols_elim _ _ h with h | h | h
    · have h2 : c ∈ (load_clean df0).cols ∨ c = "has_ai_analysis" := by
        unfold addHasAI at h
        split at h
        · exact mem_cols_assign_elim _ _ _ _ h
        · exact mem_cols_assign_elim _ _ _ _ h
      rcases h2 with h2 | h2
      · rw [cols_load_clean] at h2
        exact Or.inl h2
      · simp [h2]
    · simp [h]
    · simp [h]
  · simp [h]

/-- **C9.** Rendering adds only the four derived columns
(`has_ai_analysis`, `track_name`, `album_title`, `display_name`) to the
table the detail path reads — the ephemeral chart columns live on copies
(`moodDf2`, `keyChartData`, `ksCombined` are pure functions of the table) —
and the detail catch-all listing never contains a `*_bin`, `key_name` or
`key_scale_combined` field, nor a manually-shown or missing one. -/
theorem c9_no_temp_leak (df0 : DataFrame) (song : Row) :
    (∀ c, c ∈ (mainDf df0).cols →
        c ∈ df0.cols
          ∨ c ∈ ["has_ai_analysis", "track_name", "album_title", "display_name"])
    ∧ (∀ p, p ∈ otherFields song →
        strEndsWith p.1 "_bin" = false ∧ p.1 ≠ "key_name"
          ∧ p.1 ≠ "key_scale_combined" ∧ p.1 ∉ manual_cols
          ∧ p.2.isna = false) := by
  refine ⟨fun c h => mem_cols_mainDf_elim df0 c h, ?_⟩
  intro p hp
  unfold otherFields at hp
  rw [List.mem_filter] at hp
  obtain ⟨hp1, hp2⟩ := hp
  rw [List.mem_filter] at hp1
  obtain ⟨hp0, hcond⟩ := hp1
  simp only [Bool.not_eq_true', Bool.or_eq_false_iff,
    decide_eq_false_iff_not] at hcond
  obtain ⟨hman, htemp⟩ := hcond
  simp only [isTempCol, Bool.or_eq_false_iff, beq_eq_false_iff_ne, ne_eq] at htemp
  obtain ⟨⟨hbin, hkn⟩, hksc⟩ := htemp
  exact ⟨hbin, hkn, hksc, hman, by simpa using hp2⟩

/-- Witness for C9 at a concrete selected record carrying ephemeral columns. -/
theorem c9_no_temp_leak_witness :
    ("tempo", Value.str "120") ∈ otherFields songRowEx
    ∧ (strEndsWith "tempo" "_bin" = false ∧ "tempo" ≠ "key_name"
        ∧ "tempo" ≠ "key_scale_combined" ∧ "tempo" ∉ manual_cols
        ∧ (Value.str "120").isna = false) :=
  ⟨by decide,
   (c9_no_temp_leak dfTiny songRowEx).2 ("tempo", Value.str "120") (by decide)⟩

/-! ## Claim C5 -/

theorem mem_cols_ensureIdCols_of_mem (df : DataFrame) (c : String)
    (h : c ∈ df.cols) : c ∈ (ensureIdCols df).cols := by
  unfold ensureIdCols
  by_cases ha : "track_name" ∈ df.cols
  · rw [if_pos ha]
    by_cases hb : "album_title" ∈ df.cols
    · rw [if_pos hb]
      exact h
    · rw [if_neg hb]
      exact mem_cols_assign_of_mem _ _ _ _ h
  · rw [if_neg ha]
    by_cases hb : "album_title" ∈ (df.assign "track_name" fun _ => Value.str "N/A").cols
    · rw [if_pos hb]
      exact mem_cols_assign_of_mem _ _ _ _ h
    · rw [if_neg hb]
      exact mem_cols_assign_of_mem _ _ _ _ (mem_cols_assign_of_mem _ _ _ _ h)

theorem hasai_mem_cols_mainDf (df0 : DataFrame) :
    "has_ai_analysis" ∈ (mainDf df0).cols := by
  unfold mainDf
  apply mem_cols_assign_of_mem
  apply mem_cols_ensureIdCols_of_mem
  unfold addHasAI
  split
  · exact mem_cols_assign_self _ _ _
  · exact mem_cols_assign_self _ _ _

/-- **C5.** In the sorted listing order every earlier record dominates every
later one: a later record is annotated only if the earlier one is, and
within equal annotation status the display labels are in non-decreasing
lexicographic order; and the overview sentinel is the first entry of the
full selection list. -/
theorem c5_list_order (df0 : DataFrame) :
    (sortForList (mainDf df0)).rows.Pairwise (fun r1 r2 =>
        (rowBool r2 "has_ai_analysis" = true → rowBool r1 "has_ai_analysis" = true)
        ∧ (rowBool r1 "has_ai_analysis" = rowBool r2 "has_ai_analysis" →
            rowStr r1 "display_name" ≤ rowStr r2 "display_name"))
    ∧ (song_list (mainDf df0)).head? = some sentinelEntry := by
  constructor
  · unfold sortForList
    rw [if_pos (hasai_mem_cols_mainDf df0)]
    have hs := List.sorted_insertionSort listLeRel (mainDf df0).rows
    refine List.Pairwise.imp ?_ hs
    intro r1 r2 hle
    unfold listLeRel listLe at hle
    by_cases h : rowBool r1 "has_ai_analysis" = rowBool r2 "has_ai_analysis"
    · rw [if_pos h] at hle
      exact ⟨fun h2 => h.trans h2, fun _ => of_decide_eq_true hle⟩
    · rw [if_neg h] at hle
      exact ⟨fun _ => hle, fun he => absurd he h⟩
  · rfl

/-- Witness for C5 (the theorem is hypothesis-free): its instance at a
concrete one-record table. -/
theorem c5_list_order_witness :
    (sortForList (mainDf dfTiny)).rows.Pairwise (fun r1 r2 =>
        (rowBool r2 "has_ai_analysis" = true → rowBool r1 "has_ai_analysis" = true)
        ∧ (rowBool r1 "has_ai_analysis" = rowBool r2 "has_ai_analysis" →
            rowStr r1 "display_name" ≤ rowStr r2 "display_name"))
    ∧ (song_list (mainDf dfTiny)).head? = some sentinelEntry :=
  c5_list_order dfTiny

/-! ## Claim C10 -/

theorem pipe_mem_display (x y : String) : '|' ∈ (x ++ " | " ++ y).data := by
  cases x with
  | mk xd =>
    cases y with
    | mk yd =>
      have h : ((⟨xd⟩ : String) ++ " | " ++ (⟨yd⟩ : String)).data
          = (xd ++ [' ', '|', ' ']) ++ yd := rfl
      rw [h]
      simp

theorem sentinel_ne_displayName (df0 : DataFrame) (L : String)
    (h : L ∈ displayNames (mainDf df0)) : sentinelEntry ≠ L := by
  unfold displayNames at h
  rcases List.mem_map.mp h with ⟨r, hr, rfl⟩
  unfold mainDf addDisplayName DataFrame.assign at hr
  simp only [List.mem_map] at hr
  rcases hr with ⟨r0, hr0, rfl⟩
  intro e
  have hget : rowStr (r0.setCell "display_name"
        (Value.str (valStr (fillnaStr "N/A" (r0.get "track_name")) ++ " | "
          ++ valStr (fillnaStr "N/A" (r0.get "album_title"))))) "display_name"
      = valStr (fillnaStr "N/A" (r0.get "track_name")) ++ " | "
          ++ valStr (fillnaStr "N/A" (r0.get "album_title")) := by
    unfold rowStr
    rw [Row.get_setCell_self]
  rw [hget] at e
  have hmem : '|' ∈ sentinelEntry.data := by
    rw [e]
    exact pipe_mem_display _ _
  exact absurd hmem (by decide)

theorem mem_displayNames_sortForList (df : DataFrame) (L : String) :
    L ∈ displayNames (sortForList df) ↔ L ∈ displayNames df := by
  unfold sortForList displayNames
  split <;> simp [List.mem_map, List.mem_insertionSort]

/-- **C10.** The selection list is the sentinel followed by the distinct
display labels (first occurrences kept): the tail is duplicate-free and has
exactly the labels of the records, the full list has `1 + (number of
distinct labels)` entries, and every record's label occurs exactly once in
the full list. -/
theorem c10_unique_song_list (df0 : DataFrame) :
    song_list (mainDf df0) = sentinelEntry :: sorted_unique_names (mainDf df0)
    ∧ (sorted_unique_names (mainDf df0)).Nodup
    ∧ (∀ L : String, L ∈ sorted_unique_names (mainDf df0)
        ↔ L ∈ displayNames (mainDf df0))
    ∧ (song_list (mainDf df0)).length
        = 1 + (displayNames (mainDf df0)).toFinset.card
    ∧ ∀ L ∈ displayNames (mainDf df0), (song_list (mainDf df0)).count L = 1 := by
  have hmemiff : ∀ L : String, L ∈ sorted_unique_names (mainDf df0)
      ↔ L ∈ displayNames (mainDf df0) := by
    intro L
    unfold sorted_unique_names
    rw [mem_uniqueFirst, mem_displayNames_sortForList]
  refine ⟨rfl, nodup_uniqueFirst _, hmemiff, ?_, ?_⟩
  · have hlen : (sorted_unique_names (mainDf df0)).length
        = (displayNames (mainDf df0)).toFinset.card := by
      unfold sorted_unique_names
      rw [length_uniqueFirst]
      have hset : (displayNames (sortForList (mainDf df0))).toFinset
          = (displayNames (mainDf df0)).toFinset := by
        apply Finset.ext
        intro x
        simp only [List.mem_toFinset]
        exact mem_displayNames_sortForList _ _
      rw [hset]
    show (sentinelEntry :: sorted_unique_names (mainDf df0)).length = _
    rw [List.length_cons, hlen]
    omega
  · intro L hL
    show (sentinelEntry :: sorted_unique_names (mainDf df0)).count L = 1
    rw [List.count_cons]
    have hne : (sentinelEntry == L) = false := by
      simp only [beq_eq_false_iff_ne, ne_eq]
      exact sentinel_ne_displayName df0 L hL
    rw [hne]
    simp only [Bool.false_eq_true, if_false, Nat.add_zero]
    exact List.count_eq_one_of_mem (nodup_uniqueFirst _) ((hmemiff L).mpr hL)

/-- Witness for C10 at a concrete one-record table. -/
theorem c10_unique_song_list_witness :
    "Song | Alb" ∈ displayNames (mainDf dfTiny)
    ∧ (song_list (mainDf dfTiny)).count "Song | Alb" = 1 :=
  ⟨by decide, (c10_unique_song_list dfTiny).2.2.2.2 "Song | Alb" (by decide)⟩

/-! ## Claim C7 -/

theorem mood_col_cells (df0 : DataFrame) (c : String)
    (hc : c ∈ MOOD_COLS) (hin : c ∈ df0.cols) :
    ∀ v ∈ colVals (mainDf df0) c, v.isNum = true ∨ v = Value.na := by
  have h4 : c ≠ "display_name" ∧ c ≠ "track_name" ∧ c ≠ "album_title"
      ∧ c ≠ "has_ai_analysis" := by
    simp only [MOOD_COLS, List.mem_cons, List.not_mem_nil, or_false] at hc
    rcases hc with rfl | rfl | rfl | rfl | rfl <;>
      exact ⟨by decide, by decide, by decide, by decide⟩
  rw [colVals_mainDf_eq_clean df0 c h4.1 h4.2.1 h4.2.2.1 h4.2.2.2,
    colVals_load_clean_mem df0 c hc hin]
  intro v hv
  rcases List.mem_map.mp hv with ⟨w, _, rfl⟩
  exact toNumeric_num_or_na w

theorem moodbin_dropna_filterMap (rows : List Row) (c : String)
    (h : ∀ r ∈ rows, (r.get c).isNum = true ∨ r.get c = Value.na) :
    (dropnaRows rows [c]).map (fun r => moodBinCell (r.get c))
      = (rows.map (fun r => r.get c)).filterMap (fun v =>
          match v with
          | Value.num q =>
            some (Value.str (if (1:ℚ)/2 ≤ q then "高 (>=0.5)" else "低 (<0.5)"))
          | _ => none) := by
  induction rows with
  | nil => rfl
  | cons r rows ih =>
    have hr := h r (List.mem_cons_self _ _)
    have hrest := ih (fun r2 h2 => h r2 (List.mem_cons_of_mem _ h2))
    rcases hr with hnum | hna
    · cases hv : r.get c with
      | num q =>
        have hd : dropnaRows (r :: rows) [c] = r :: dropnaRows rows [c] := by
          simp [dropnaRows, List.filter_cons, hv, Value.isna]
        rw [hd, List.map_cons, List.map_cons, List.filterMap_cons, hv, hrest]
        rfl
      | str s => rw [hv] at hnum; simp [Value.isNum] at hnum
      | bool b => rw [hv] at hnum; simp [Value.isNum] at hnum
      | na => rw [hv] at hnum; simp [Value.isNum] at hnum
    · have hd : dropnaRows (r :: rows) [c] = dropnaRows rows [c] := by
        simp [dropnaRows, List.filter_cons, hna, Value.isna]
      rw [hd, List.map_cons, List.filterMap_cons, hna]
      exact hrest

/-- **C7.** On the loaded (cleaned) table each mood chart never raises: the
`numpy` binarization runs on numbers only, and the labels fed to the mood
pie are exactly the present scores, labelled high iff the score is at least
`0.5` (ties included), with missing scores contributing no label at all. -/
theorem c7_mood_binarize (df0 : DataFrame) (c : String)
    (hc : c ∈ MOOD_COLS) (hin : c ∈ df0.cols) :
    moodChartE (mainDf df0) c
        = .ok (plot_pie_chart (moodDf2 (mainDf df0) c) (c ++ "_bin") 10)
    ∧ moodBinLabels (mainDf df0) c
        = (colVals (mainDf df0) c).filterMap (fun v =>
            match v with
            | Value.num q =>
              some (Value.str (if (1:ℚ)/2 ≤ q then "高 (>=0.5)" else "低 (<0.5)"))
            | _ => none) := by
  have hcells := mood_col_cells df0 c hc hin
  constructor
  · unfold moodChartE
    have hnostr : ((moodDf (mainDf df0) c).rows.any fun r => (r.get c).isStr)
        = false := by
      rw [List.any_eq_false]
      intro r hr
      have hrm : r ∈ (mainDf df0).rows := by
        unfold moodDf dropnaRows at hr
        exact (List.mem_filter.mp hr).1
      have hv := hcells (r.get c) (List.mem_map_of_mem _ hrm)
      rcases hv with hv | hv
      · cases hw : r.get c <;> simp [hw, Value.isNum, Value.isStr] at hv ⊢
      · simp [hv, Value.isStr]
    by_cases hemp : (moodDf (mainDf df0) c).rows = []
    · rw [if_pos hemp]
      have hpie : plot_pie_chart (moodDf2 (mainDf df0) c) (c ++ "_bin") 10
          = none := by
        unfold plot_pie_chart
        rw [if_pos (Or.inr ?_)]
        unfold colVals moodDf2 DataFrame.assign
        rw [hemp]
        rfl
      rw [hpie]
    · rw [if_neg hemp, if_neg (by simp [hnostr])]
  · unfold moodBinLabels
    rw [show colVals (moodDf2 (mainDf df0) c) (c ++ "_bin")
        = ((moodDf (mainDf df0) c).rows.map (fun r => moodBinCell (r.get c)))
      from colVals_assign_self _ _ _]
    exact moodbin_dropna_filterMap _ c
      (fun r hr => hcells _ (List.mem_map_of_mem _ hr))

/-- Witness for C7 at a concrete table with one mood column. -/
theorem c7_mood_binarize_witness :
    ("mood_happy" ∈ MOOD_COLS ∧ "mood_happy" ∈ dfMoodEx.cols)
    ∧ (moodChartE (mainDf dfMoodEx) "mood_happy"
          = .ok (plot_pie_chart (moodDf2 (mainDf dfMoodEx) "mood_happy")
              ("mood_happy" ++ "_bin") 10)
      ∧ moodBinLabels (mainDf dfMoodEx) "mood_happy"
          = (colVals (mainDf dfMoodEx) "mood_happy").filterMap (fun v =>
              match v with
              | Value.num q =>
                some (Value.str (if (1:ℚ)/2 ≤ q then "高 (>=0.5)" else "低 (<0.5)"))
              | _ => none)) :=
  ⟨⟨by decide, by decide⟩,
   c7_mood_binarize dfMoodEx "mood_happy" (by decide) (by decide)⟩

/-! ## Claim C3 -/

theorem filter_map_dropna_na (rows : List Row) (c : String) (f : Value → Value)
    (hf : f Value.na = Value.na) :
    ((dropnaRows rows [c]).map (fun r => f (r.get c))).filter (fun v => !v.isna)
      = ((rows.map (fun r => r.get c)).map f).filter (fun v => !v.isna) := by
  induction rows with
  | nil => rfl
  | cons r rows ih =>
    by_cases hna : r.get c = Value.na
    · have hd : dropnaRows (r :: rows) [c] = dropnaRows rows [c] := by
        simp [dropnaRows, List.filter_cons, hna, Value.isna]
      rw [hd, List.map_cons, List.map_cons, List.filter_cons, hna, hf]
      rw [if_neg (by decide)]
      exact ih
    · have hkeep : (r.get c).isna = false := by
        cases hw : r.get c <;> simp_all [Value.isna]
      have hd : dropnaRows (r :: rows) [c] = r :: dropnaRows rows [c] := by
        simp [dropnaRows, List.filter_cons, hkeep]
      rw [hd, List.map_cons, List.map_cons, List.map_cons,
        List.filter_cons, List.filter_cons, ih]

theorem keyChartLabels_eq (df : DataFrame) :
    keyChartLabels df
      = ((colVals df "key_key").map keyNameVal).filter (fun v => !v.isna) := by
  have step1 : keyChartLabels df
      = ((((⟨df.cols, dropnaRows df.rows ["key_key"]⟩ : DataFrame).assign
          "key_name" (fun r => keyNameVal (r.get "key_key"))).rows.map
            (fun r => r.get "key_name")).filter (fun v => !v.isna)) :=
    colVals_dropna_single _ _
  rw [step1]
  have step2 : (((⟨df.cols, dropnaRows df.rows ["key_key"]⟩ : DataFrame).assign
        "key_name" (fun r => keyNameVal (r.get "key_key"))).rows.map
          (fun r => r.get "key_name"))
      = (dropnaRows df.rows ["key_key"]).map
          (fun r => keyNameVal (r.get "key_key")) :=
    colVals_assign_self _ _ _
  rw [step2]
  exact filter_map_dropna_na df.rows "key_key" keyNameVal rfl

/-- **C3 (amended).** The fixed table maps `0.0 → "C"`, …, `11.0 → "B"`.
In the standalone key chart an out-of-table numeric key becomes missing and
the record is excluded (the counted labels are exactly the non-missing
images of the key column).  In the combined key+scale chart, however, an
out-of-table numeric key becomes the literal string `"N/A"` and the record
is kept, contributing the label `"N/A <scale>"`. -/
theorem c3_key_mapping_amended :
    (key_map 0 = some "C" ∧ key_map 1 = some "C#" ∧ key_map 2 = some "D"
      ∧ key_map 3 = some "D#" ∧ key_map 4 = some "E" ∧ key_map 5 = some "F"
      ∧ key_map 6 = some "F#" ∧ key_map 7 = some "G" ∧ key_map 8 = some "G#"
      ∧ key_map 9 = some "A" ∧ key_map 10 = some "A#" ∧ key_map 11 = some "B")
    ∧ (∀ q : ℚ, key_map q = none → keyNameVal (Value.num q) = Value.na)
    ∧ (∀ df : DataFrame, keyChartLabels df
        = ((colVals df "key_key").map keyNameVal).filter (fun v => !v.isna))
    ∧ (∀ q : ℚ, key_map q = none → keyNameNA (Value.num q) = "N/A")
    ∧ (∀ (df : DataFrame) (r : Row) (q : ℚ) (s : String),
        r ∈ df.rows → r.get "key_key" = Value.num q → key_map q = none
        → r.get "key_scale" = Value.str s
        → Value.str ("N/A" ++ " " ++ s) ∈ ksCombinedLabels df) := by
  refine ⟨by decide, ?_, keyChartLabels_eq, ?_, ?_⟩
  · intro q h
    simp only [keyNameVal, h]
  · intro q h
    simp only [keyNameNA, h, Option.getD_none]
  · intro df r q s hr hkey hnone hscale
    unfold ksCombinedLabels ksCombined
    rw [show colVals ((df.assign "key_name"
          (fun r => Value.str (keyNameNA (r.get "key_key")))).assign
          "key_scale_combined" (fun r =>
            match r.get "key_name", r.get "key_scale" with
            | Value.str a, Value.str b => Value.str (a ++ " " ++ b)
            | _, _ => Value.na)) "key_scale_combined"
        = (df.assign "key_name"
            (fun r => Value.str (keyNameNA (r.get "key_key")))).rows.map
            (fun r =>
              match r.get "key_name", r.get "key_scale" with
              | Value.str a, Value.str b => Value.str (a ++ " " ++ b)
              | _, _ => Value.na)
      from colVals_assign_self _ _ _]
    have hmem2 : r.setCell "key_name" (Value.str (keyNameNA (r.get "key_key")))
        ∈ (df.assign "key_name"
            (fun r => Value.str (keyNameNA (r.get "key_key")))).rows :=
      List.mem_map_of_mem _ hr
    have hval : (fun r2 : Row =>
          match r2.get "key_name", r2.get "key_scale" with
          | Value.str a, Value.str b => Value.str (a ++ " " ++ b)
          | _, _ => Value.na)
          (r.setCell "key_name" (Value.str (keyNameNA (r.get "key_key"))))
        = Value.str ("N/A" ++ " " ++ s) := by
      have h1 : (r.setCell "key_name"
            (Value.str (keyNameNA (r.get "key_key")))).get "key_name"
          = Value.str (keyNameNA (r.get "key_key")) := Row.get_setCell_self _ _ _
      have h2 : (r.setCell "key_name"
            (Value.str (keyNameNA (r.get "key_key")))).get "key_scale"
          = r.get "key_scale" := Row.get_setCell_ne _ _ _ _ (by decide)
      beta_reduce
      rw [h1, h2, hscale, hkey]
      simp only [keyNameNA, hnone, Option.getD_none]
    exact hval ▸ List.mem_map_of_mem _ hmem2

/-- Counterexample to C3 as stated: in the combined key+scale chart the
record with the out-of-table key index `12.0` is *not* excluded — it shows
up as the kept category `"N/A major"` (count 1). -/
theorem c3_counterexample :
    (keyScaleBlock (mainDf dfKey12)).map (fun o =>
        o.map (fun l => l.map (fun p => (p.1, p.2.1))))
      = .ok (some [(Value.str "N/A major", 1)]) := by rfl

/-- Witness for C3 (amended) at the concrete out-of-table key `12.0`. -/
theorem c3_key_mapping_amended_witness :
    (key_map 12 = none
      ∧ [("key_key", Value.num 12), ("key_scale", Value.str "major")]
          ∈ dfKey12.rows)
    ∧ keyNameVal (Value.num 12) = Value.na
    ∧ keyNameNA (Value.num 12) = "N/A"
    ∧ Value.str ("N/A" ++ " " ++ "major") ∈ ksCombinedLabels dfKey12 :=
  ⟨⟨by decide, by decide⟩,
   c3_key_mapping_amended.2.1 12 (by decide),
   c3_key_mapping_amended.2.2.2.1 12 (by decide),
   c3_key_mapping_amended.2.2.2.2 dfKey12
     [("key_key", Value.num 12), ("key_scale", Value.str "major")] 12 "major"
     (by decide) (by decide) (by decide) (by decide)⟩
